import Mathlib

/-!
Shallow embedding of the kube-state metric processor
(src/utils/kubernetes/kube_state_processor.py, class KubeStateProcessor).

The processor receives a decoded metric family (a name plus a list of metric
samples, each carrying an ordered label list and a gauge value) and dispatches
on the family name to a per-family handler.  Handlers emit gauges and service
checks through the check framework; we model every observable output (gauge
call, service-check call, debug log line) as an element of an emission trace,
and a Python exception escaping a handler as an error flag carried next to the
emissions already produced.  Gauge values are modelled as rationals (the
protobuf gauge field is a float; every value the processor inspects is compared
only against zero, which the rationals model faithfully).
-/

/-- A protobuf label: a name/value pair of strings. -/
structure Label where
  name : String
  value : String
deriving DecidableEq, Inhabited

/-- The gauge sub-message of a metric sample; only its value field is read. -/
structure Gauge where
  value : Rat
deriving DecidableEq, Inhabited

/-- One metric sample: an ordered label list and a gauge. -/
structure Metric where
  label : List Label
  gauge : Gauge
deriving DecidableEq, Inhabited

/-- A decoded metric family: its name and its list of samples. -/
structure MetricFamily where
  name : String
  metric : List Metric
deriving DecidableEq, Inhabited

/-- Service-check status constants of the check framework. -/
inductive SCStatus where
  | OK
  | WARNING
  | CRITICAL
  | UNKNOWN
deriving DecidableEq

/-- One observable output of the processor. -/
inductive Emission where
  | gauge (name : String) (value : Rat) (tags : List String)
  | serviceCheck (name : String) (status : SCStatus) (tags : List String)
  | logDebug (msg : String)
deriving DecidableEq

/-- The Python exceptions the modelled code paths can raise: an AttributeError
(getattr miss, or None.get inside the pod handler), an IndexError
(metric.label[0] on an empty label list), a TypeError (invoking a non-callable
attribute, or a method with the wrong arguments), and a RecursionError
(dispatching a family literally named process recurses without bound). -/
inductive PyExc where
  | attributeError
  | indexError
  | typeError
  | recursionError
deriving DecidableEq

/-- Result of running a handler (or process): the emissions produced before
control left the function, and the exception escaping it, if any.  Emissions
made before an exception stand. -/
structure HResult where
  emissions : List Emission
  err : Option PyExc
deriving DecidableEq

/-- The keyword argument `instance` as the pod-readiness handler sees it
through kwargs.get.  In the source the value reaching the handler is either
absent (kwargs.get substitutes an empty dict), the Python value None (on which
the subsequent .get raises AttributeError), or a configuration mapping whose
only key read is status_ready_for_pods. -/
inductive InstanceArg where
  | absent
  | pyNone
  | dict (status_ready_for_pods : Option (List String))
deriving DecidableEq

/-- Python str rendering of an optional string under format: an absent value
(None) renders as the string None. -/
def formatOpt : Option String → String
  | some s => s
  | none => "None"

/-- Membership test of an optional pod name in the configured list, as Python
evaluates pod_name in configured_pods: None is a member of no string list. -/
def optMem : Option String → List String → Bool
  | some s, xs => xs.contains s
  | none, _ => false

/-- Loop body of _eval_metric_condition: scan the labels for one named
condition and return its value paired with the precomputed gauge truthiness;
fall through to the pair (None, None). -/
def evalCondLoop (val : Bool) : List Label → Option String × Option Bool
  | [] => (none, none)
  | l :: rest => if l.name == "condition" then (some l.value, some val) else evalCondLoop val rest

/-- Gauge truthiness, Python bool applied to the gauge value: nonzero is true. -/
def gaugeTruthy (m : Metric) : Bool :=
  decide (m.gauge.value ≠ 0)

/-- Translation of KubeStateProcessor._eval_metric_condition: computes
bool(metric.gauge.value), then scans metric.label for a label named condition,
returning its value with the truthiness, or (None, None) when none is found. -/
def _eval_metric_condition (m : Metric) : Option String × Option Bool :=
  evalCondLoop (gaugeTruthy m) m.label

/-- Translation of KubeStateProcessor._extract_label_value: first label whose
name matches, else None. -/
def _extract_label_value : String → List Label → Option String
  | _, [] => none
  | n, l :: rest => if l.name == n then some l.value else _extract_label_value n rest

/-- Spec-side helper: value of the first label named condition, phrased with
List.find?, used to characterise the loop-based helpers. -/
def firstCondValue (m : Metric) : Option String :=
  (m.label.find? (fun l => l.name == "condition")).map Label.value

theorem evalCondLoop_eq_find (val : Bool) (labels : List Label) :
    evalCondLoop val labels =
      match (labels.find? (fun l => l.name == "condition")).map Label.value with
      | some v => (some v, some val)
      | none => (none, none) := by
  induction labels with
  | nil => rfl
  | cons l rest ih =>
    by_cases h : l.name = "condition"
    · simp [evalCondLoop, List.find?, h]
    · rw [evalCondLoop, List.find?, if_neg (by simpa using h),
        show (l.name == "condition") = false from beq_eq_false_iff_ne.mpr h]
      exact ih

theorem eval_cond_spec (m : Metric) :
    _eval_metric_condition m =
      match firstCondValue m with
      | some v => (some v, some (gaugeTruthy m))
      | none => (none, none) := by
  unfold _eval_metric_condition firstCondValue
  exact evalCondLoop_eq_find (gaugeTruthy m) m.label

theorem extract_label_value_eq_find (n : String) (labels : List Label) :
    _extract_label_value n labels =
      (labels.find? (fun l => l.name == n)).map Label.value := by
  induction labels with
  | nil => rfl
  | cons l rest ih =>
    by_cases h : l.name = n
    · simp [_extract_label_value, List.find?, h]
    · rw [_extract_label_value, if_neg (by simpa using h), List.find?,
        show (l.name == n) = false from beq_eq_false_iff_ne.mpr h]
      exact ih

/-!
Per-family handlers.  Each takes the message and the kwargs (of which only the
instance key is ever read, by kube_pod_status_ready) and returns its emission
trace with the exception escaping it, if any.
-/

/-- Tag list built by the node-family handlers other than cpu capacity:
host: followed by the value of the label named node (None when absent). -/
def nodeHostTags (m : Metric) : List String :=
  ["host:" ++ formatOpt (_extract_label_value "node" m.label)]

/-- Loop of kube_node_status_capacity_cpu_cores: for each sample emit a gauge
tagged host: plus the value of metric.label[0]; an empty label list raises
IndexError at that sample, keeping earlier emissions. -/
def cpuCapacityLoop : List Metric → HResult
  | [] => ⟨[], none⟩
  | m :: rest =>
    match m.label with
    | [] => ⟨[], some PyExc.indexError⟩
    | l0 :: _ =>
      let r := cpuCapacityLoop rest
      ⟨Emission.gauge "kubernetes.node.cpu_capacity" m.gauge.value ["host:" ++ l0.value]
          :: r.emissions,
        r.err⟩

/-- Handler kube_node_status_capacity_cpu_cores (positional label access). -/
def kube_node_status_capacity_cpu_cores (message : MetricFamily) (_kw : InstanceArg) : HResult :=
  cpuCapacityLoop message.metric

/-- Handler kube_node_status_capacity_memory_bytes. -/
def kube_node_status_capacity_memory_bytes (message : MetricFamily) (_kw : InstanceArg) : HResult :=
  ⟨message.metric.map
      (fun m => Emission.gauge "kubernetes.node.memory_capacity" m.gauge.value (nodeHostTags m)),
    none⟩

/-- Handler kube_node_status_capacity_pods. -/
def kube_node_status_capacity_pods (message : MetricFamily) (_kw : InstanceArg) : HResult :=
  ⟨message.metric.map
      (fun m => Emission.gauge "kubernetes.node.pods_capacity" m.gauge.value (nodeHostTags m)),
    none⟩

/-- Handler kube_node_status_allocateable_cpu_cores (spelling as in source). -/
def kube_node_status_allocateable_cpu_cores (message : MetricFamily) (_kw : InstanceArg) : HResult :=
  ⟨message.metric.map
      (fun m => Emission.gauge "kubernetes.node.cpu_allocatable" m.gauge.value (nodeHostTags m)),
    none⟩

/-- Handler kube_node_status_allocateable_memory_bytes. -/
def kube_node_status_allocateable_memory_bytes (message : MetricFamily) (_kw : InstanceArg) : HResult :=
  ⟨message.metric.map
      (fun m => Emission.gauge "kubernetes.node.memory_allocatable" m.gauge.value (nodeHostTags m)),
    none⟩

/-- Handler kube_node_status_allocateable_pods. -/
def kube_node_status_allocateable_pods (message : MetricFamily) (_kw : InstanceArg) : HResult :=
  ⟨message.metric.map
      (fun m => Emission.gauge "kubernetes.node.pods_allocatable" m.gauge.value (nodeHostTags m)),
    none⟩

/-- Tag list of the deployment handlers: every label rendered name:value in
input order. -/
def deploymentTags (m : Metric) : List String :=
  m.label.map (fun l => l.name ++ ":" ++ l.value)

/-- Handler kube_deployment_status_replicas_available. -/
def kube_deployment_status_replicas_available (message : MetricFamily) (_kw : InstanceArg) : HResult :=
  ⟨message.metric.map
      (fun m =>
        Emission.gauge "kubernetes.deployment.replicas_available" m.gauge.value (deploymentTags m)),
    none⟩

/-- Handler kube_deployment_status_replicas_unavailable. -/
def kube_deployment_status_replicas_unavailable (message : MetricFamily) (_kw : InstanceArg) : HResult :=
  ⟨message.metric.map
      (fun m =>
        Emission.gauge "kubernetes.deployment.replicas_unavailable" m.gauge.value
          (deploymentTags m)),
    none⟩

/-- Handler kube_deployment_status_replicas_updated. -/
def kube_deployment_status_replicas_updated (message : MetricFamily) (_kw : InstanceArg) : HResult :=
  ⟨message.metric.map
      (fun m =>
        Emission.gauge "kubernetes.deployment.replicas_updated" m.gauge.value (deploymentTags m)),
    none⟩

/-- Handler kube_deployment_spec_replicas. -/
def kube_deployment_spec_replicas (message : MetricFamily) (_kw : InstanceArg) : HResult :=
  ⟨message.metric.map
      (fun m =>
        Emission.gauge "kubernetes.deployment.replicas_desired" m.gauge.value (deploymentTags m)),
    none⟩

/-- Loop body of kube_node_status_ready for one sample: the elif chain on the
extracted condition, emitting at most one service check. -/
def nodeReadySampleEmissions (m : Metric) : List Emission :=
  if (_eval_metric_condition m).fst = some "true" ∧ (_eval_metric_condition m).snd = some true then
    [Emission.serviceCheck "kube_node_status_ready" SCStatus.OK (nodeHostTags m)]
  else if (_eval_metric_condition m).fst = some "false" ∧
      (_eval_metric_condition m).snd = some true then
    [Emission.serviceCheck "kube_node_status_ready" SCStatus.CRITICAL (nodeHostTags m)]
  else if (_eval_metric_condition m).fst = some "unknown" ∧
      (_eval_metric_condition m).snd = some true then
    [Emission.serviceCheck "kube_node_status_ready" SCStatus.UNKNOWN (nodeHostTags m)]
  else []

/-- Handler kube_node_status_ready. -/
def kube_node_status_ready (message : MetricFamily) (_kw : InstanceArg) : HResult :=
  ⟨List.flatten (message.metric.map nodeReadySampleEmissions), none⟩

/-- Loop body of kube_node_status_out_of_disk for one sample: same elif chain
with the status mapping inverted. -/
def outOfDiskSampleEmissions (m : Metric) : List Emission :=
  if (_eval_metric_condition m).fst = some "true" ∧ (_eval_metric_condition m).snd = some true then
    [Emission.serviceCheck "kube_node_status_out_of_disk" SCStatus.CRITICAL (nodeHostTags m)]
  else if (_eval_metric_condition m).fst = some "false" ∧
      (_eval_metric_condition m).snd = some true then
    [Emission.serviceCheck "kube_node_status_out_of_disk" SCStatus.OK (nodeHostTags m)]
  else if (_eval_metric_condition m).fst = some "unknown" ∧
      (_eval_metric_condition m).snd = some true then
    [Emission.serviceCheck "kube_node_status_out_of_disk" SCStatus.UNKNOWN (nodeHostTags m)]
  else []

/-- Handler kube_node_status_out_of_disk. -/
def kube_node_status_out_of_disk (message : MetricFamily) (_kw : InstanceArg) : HResult :=
  ⟨List.flatten (message.metric.map outOfDiskSampleEmissions), none⟩

/-- Tag list of the pod-readiness handler for one sample. -/
def podTags (m : Metric) : List String :=
  ["namespace:" ++ formatOpt (_extract_label_value "namespace" m.label),
    "pod:" ++ formatOpt (_extract_label_value "pod" m.label)]

/-- Loop body of kube_pod_status_ready for one sample: skip samples whose pod
label value is not in the configured list, then run the mixed branch shape of
the source — an if for the asserted-true case followed by a separate
if / elif pair for the asserted-false and asserted-unknown cases. -/
def podReadySampleEmissions (configured_pods : List String) (m : Metric) : List Emission :=
  if ¬ (optMem (_extract_label_value "pod" m.label) configured_pods = true) then []
  else
    (if (_eval_metric_condition m).fst = some "true" ∧
        (_eval_metric_condition m).snd = some true then
      [Emission.serviceCheck "kube_pod_status_ready" SCStatus.OK (podTags m)]
    else []) ++
    (if (_eval_metric_condition m).fst = some "false" ∧
        (_eval_metric_condition m).snd = some true then
      [Emission.serviceCheck "kube_pod_status_ready" SCStatus.CRITICAL (podTags m)]
    else if (_eval_metric_condition m).fst = some "unknown" ∧
        (_eval_metric_condition m).snd = some true then
      [Emission.serviceCheck "kube_pod_status_ready" SCStatus.UNKNOWN (podTags m)]
    else [])

/-- The expression kwargs.get with key instance followed by .get with key
status_ready_for_pods: an absent instance yields an empty dict whose .get
returns None; the Python value None has no .get attribute and raises
AttributeError; a dict returns what it stores under the key. -/
def getStatusReadyForPods : InstanceArg → Except PyExc (Option (List String))
  | InstanceArg.absent => Except.ok none
  | InstanceArg.pyNone => Except.error PyExc.attributeError
  | InstanceArg.dict o => Except.ok o

/-- Handler kube_pod_status_ready: short-circuits with a debug log when no
allow-list is configured, else classifies each allow-listed sample. -/
def kube_pod_status_ready (message : MetricFamily) (kw : InstanceArg) : HResult :=
  match getStatusReadyForPods kw with
  | Except.error e => ⟨[], some e⟩
  | Except.ok none =>
    ⟨[Emission.logDebug "no pods configured, kube_pod_status_ready has nothing to do, returning..."],
      none⟩
  | Except.ok (some configured_pods) =>
    ⟨List.flatten (message.metric.map (podReadySampleEmissions configured_pods)), none⟩

/-- Outcome of getattr on the processor object for a metric-family name.  The
source dispatches with getattr, which resolves every attribute of the object,
not only the per-family handler methods: the other methods of the class, the
attributes set by its initialiser (kube_check, log, gauge) and the attribute
names every Python object inherits.  A resolved non-handler attribute is then
called with (message, kwargs); where that call's outcome follows from this
source file and the spec's description of the collaborators we record the
exception it raises, and where it depends on external collaborators (the
gauge partial over the external publish_gauge, the external check object, a
method whose behavior depends on the message object's attribute set, or an
inherited dunder attribute) the model leaves it undetermined. -/
inductive AttrResolution where
  | handler (f : MetricFamily → InstanceArg → HResult)
  | nonHandlerRaises (e : PyExc)
  | nonHandlerExternal
  | missing

/-- Names beginning with two underscores: a conservative guard covering every
attribute name a plain Python object inherits (all of which start with a
double underscore), so that the missing branch of the resolution is sound. -/
def isDunderName (n : String) : Bool :=
  decide (n.data.take 2 = ['_', '_'])

/-- Resolution of getattr on the processor object, name by name.  The 13
per-family handler methods dispatch; process resolves to the dispatcher itself
and calling it recurses without bound until RecursionError, which no except
AttributeError clause catches; log resolves to the logger object, which is not
callable, raising TypeError; _extract_label_value called as
(message, **kwargs) — with kwargs holding at most the instance key — lacks its
labels argument either way, raising TypeError; gauge (a partial over the
external publish_gauge), kube_check (the external check object) and
_eval_metric_condition (whose body's first attribute access depends on the
decoded message class) have invocation behavior the model leaves
undetermined, as it does for every inherited dunder attribute name; any other
name is no attribute of the object, so getattr raises AttributeError. -/
def attrFor (n : String) : AttrResolution :=
  if n = "kube_node_status_capacity_cpu_cores" then
    AttrResolution.handler kube_node_status_capacity_cpu_cores
  else if n = "kube_node_status_capacity_memory_bytes" then
    AttrResolution.handler kube_node_status_capacity_memory_bytes
  else if n = "kube_node_status_capacity_pods" then
    AttrResolution.handler kube_node_status_capacity_pods
  else if n = "kube_node_status_allocateable_cpu_cores" then
    AttrResolution.handler kube_node_status_allocateable_cpu_cores
  else if n = "kube_node_status_allocateable_memory_bytes" then
    AttrResolution.handler kube_node_status_allocateable_memory_bytes
  else if n = "kube_node_status_allocateable_pods" then
    AttrResolution.handler kube_node_status_allocateable_pods
  else if n = "kube_deployment_status_replicas_available" then
    AttrResolution.handler kube_deployment_status_replicas_available
  else if n = "kube_deployment_status_replicas_unavailable" then
    AttrResolution.handler kube_deployment_status_replicas_unavailable
  else if n = "kube_deployment_status_replicas_updated" then
    AttrResolution.handler kube_deployment_status_replicas_updated
  else if n = "kube_deployment_spec_replicas" then
    AttrResolution.handler kube_deployment_spec_replicas
  else if n = "kube_node_status_ready" then
    AttrResolution.handler kube_node_status_ready
  else if n = "kube_node_status_out_of_disk" then
    AttrResolution.handler kube_node_status_out_of_disk
  else if n = "kube_pod_status_ready" then
    AttrResolution.handler kube_pod_status_ready
  else if n = "process" then AttrResolution.nonHandlerRaises PyExc.recursionError
  else if n = "log" then AttrResolution.nonHandlerRaises PyExc.typeError
  else if n = "_extract_label_value" then AttrResolution.nonHandlerRaises PyExc.typeError
  else if n = "gauge" then AttrResolution.nonHandlerExternal
  else if n = "kube_check" then AttrResolution.nonHandlerExternal
  else if n = "_eval_metric_condition" then AttrResolution.nonHandlerExternal
  else if isDunderName n then AttrResolution.nonHandlerExternal
  else AttrResolution.missing

/-- The registered per-family handler for a name, when the name resolves to
one. -/
def handlerFor (n : String) : Option (MetricFamily → InstanceArg → HResult) :=
  match attrFor n with
  | AttrResolution.handler f => some f
  | _ => none

/-- The dispatcher process: the try block covers both the getattr lookup and
the invocation of whatever attribute it resolved, and the except clause
catches AttributeError — whether it came from the lookup (no such attribute)
or from inside the called body — logging the unable-to-handle line; every
other exception escapes.  The result is none exactly when the name resolved
to an attribute whose invocation the model leaves undetermined. -/
def process (message : MetricFamily) (kw : InstanceArg) : Option HResult :=
  let attempt : Option HResult :=
    match attrFor message.name with
    | AttrResolution.handler h => some (h message kw)
    | AttrResolution.nonHandlerRaises e => some ⟨[], some e⟩
    | AttrResolution.nonHandlerExternal => none
    | AttrResolution.missing => some ⟨[], some PyExc.attributeError⟩
  match attempt with
  | none => none
  | some r =>
    match r.err with
    | some PyExc.attributeError =>
      some ⟨r.emissions ++ [Emission.logDebug ("Unable to handle metric: " ++ message.name)],
        none⟩
    | e => some ⟨r.emissions, e⟩

/-!
Spec-side classification tables and per-sample characterisations.
-/

/-- The node-readiness status table of the spec: asserted true is OK, asserted
false is CRITICAL, asserted unknown is UNKNOWN, anything else emits nothing. -/
def readyStatusFor (v : Option String) : Option SCStatus :=
  if v = some "true" then some SCStatus.OK
  else if v = some "false" then some SCStatus.CRITICAL
  else if v = some "unknown" then some SCStatus.UNKNOWN
  else none

/-- The inverted out-of-disk status table of the spec: asserted true is
CRITICAL, asserted false is OK, asserted unknown is UNKNOWN. -/
def outOfDiskStatusFor (v : Option String) : Option SCStatus :=
  if v = some "true" then some SCStatus.CRITICAL
  else if v = some "false" then some SCStatus.OK
  else if v = some "unknown" then some SCStatus.UNKNOWN
  else none

/-- Emission list of one classified sample: one service check when a status
was assigned, nothing otherwise. -/
def emitChecks (scName : String) (tags : List String) : Option SCStatus → List Emission
  | some st => [Emission.serviceCheck scName st tags]
  | none => []

theorem nodeReadySample_spec (m : Metric) :
    nodeReadySampleEmissions m =
      if gaugeTruthy m then
        emitChecks "kube_node_status_ready" (nodeHostTags m) (readyStatusFor (firstCondValue m))
      else [] := by
  unfold nodeReadySampleEmissions
  rw [eval_cond_spec]
  rcases hf : firstCondValue m with _ | v
  · simp [emitChecks, readyStatusFor]
  · cases ht : gaugeTruthy m
    · simp [emitChecks, readyStatusFor]
    · by_cases h1 : v = "true"
      · simp [h1, emitChecks, readyStatusFor]
      · by_cases h2 : v = "false"
        · simp [h1, h2, emitChecks, readyStatusFor]
        · by_cases h3 : v = "unknown"
          · simp [h1, h2, h3, emitChecks, readyStatusFor]
          · simp [h1, h2, h3, emitChecks, readyStatusFor]

theorem outOfDiskSample_spec (m : Metric) :
    outOfDiskSampleEmissions m =
      if gaugeTruthy m then
        emitChecks "kube_node_status_out_of_disk" (nodeHostTags m)
          (outOfDiskStatusFor (firstCondValue m))
      else [] := by
  unfold outOfDiskSampleEmissions
  rw [eval_cond_spec]
  rcases hf : firstCondValue m with _ | v
  · simp [emitChecks, outOfDiskStatusFor]
  · cases ht : gaugeTruthy m
    · simp [emitChecks, outOfDiskStatusFor]
    · by_cases h1 : v = "true"
      · simp [h1, emitChecks, outOfDiskStatusFor]
      · by_cases h2 : v = "false"
        · simp [h1, h2, emitChecks, outOfDiskStatusFor]
        · by_cases h3 : v = "unknown"
          · simp [h1, h2, h3, emitChecks, outOfDiskStatusFor]
          · simp [h1, h2, h3, emitChecks, outOfDiskStatusFor]

theorem podReadySample_spec (pods : List String) (m : Metric) :
    podReadySampleEmissions pods m =
      if optMem (_extract_label_value "pod" m.label) pods then
        (if gaugeTruthy m then
          emitChecks "kube_pod_status_ready" (podTags m) (readyStatusFor (firstCondValue m))
        else [])
      else [] := by
  unfold podReadySampleEmissions
  by_cases hp : optMem (_extract_label_value "pod" m.label) pods = true
  · rw [if_neg (by simpa using hp), if_pos hp]
    rw [eval_cond_spec]
    rcases hf : firstCondValue m with _ | v
    · simp [emitChecks, readyStatusFor]
    · cases ht : gaugeTruthy m
      · simp [emitChecks, readyStatusFor]
      · by_cases h1 : v = "true"
        · simp [h1, emitChecks, readyStatusFor]
        · by_cases h2 : v = "false"
          · simp [h1, h2, emitChecks, readyStatusFor]
          · by_cases h3 : v = "unknown"
            · simp [h1, h2, h3, emitChecks, readyStatusFor]
            · simp [h1, h2, h3, emitChecks, readyStatusFor]
  · rw [if_pos (by simpa using hp), if_neg (by simpa using hp)]

/-- Modelled from the spec: the pod-readiness per-sample classification
rewritten with the symmetric elif chain that the node-readiness handler uses
(every branch after the first chained with elif), for comparison with the
mixed if / elif shape of the source. -/
def podReadySampleElifChain (configured_pods : List String) (m : Metric) : List Emission :=
  if ¬ (optMem (_extract_label_value "pod" m.label) configured_pods = true) then []
  else if (_eval_metric_condition m).fst = some "true" ∧
      (_eval_metric_condition m).snd = some true then
    [Emission.serviceCheck "kube_pod_status_ready" SCStatus.OK (podTags m)]
  else if (_eval_metric_condition m).fst = some "false" ∧
      (_eval_metric_condition m).snd = some true then
    [Emission.serviceCheck "kube_pod_status_ready" SCStatus.CRITICAL (podTags m)]
  else if (_eval_metric_condition m).fst = some "unknown" ∧
      (_eval_metric_condition m).snd = some true then
    [Emission.serviceCheck "kube_pod_status_ready" SCStatus.UNKNOWN (podTags m)]
  else []

theorem podReadySampleElifChain_spec (pods : List String) (m : Metric) :
    podReadySampleElifChain pods m =
      if optMem (_extract_label_value "pod" m.label) pods then
        (if gaugeTruthy m then
          emitChecks "kube_pod_status_ready" (podTags m) (readyStatusFor (firstCondValue m))
        else [])
      else [] := by
  unfold podReadySampleElifChain
  by_cases hp : optMem (_extract_label_value "pod" m.label) pods = true
  · rw [if_neg (by simpa using hp), if_pos hp]
    rw [eval_cond_spec]
    rcases hf : firstCondValue m with _ | v
    · simp [emitChecks, readyStatusFor]
    · cases ht : gaugeTruthy m
      · simp [emitChecks, readyStatusFor]
      · by_cases h1 : v = "true"
        · simp [h1, emitChecks, readyStatusFor]
        · by_cases h2 : v = "false"
          · simp [h1, h2, emitChecks, readyStatusFor]
          · by_cases h3 : v = "unknown"
            · simp [h1, h2, h3, emitChecks, readyStatusFor]
            · simp [h1, h2, h3, emitChecks, readyStatusFor]
  · rw [if_pos (by simpa using hp), if_neg (by simpa using hp)]

/-!
Concrete inputs used by counterexamples and witnesses.
-/

/-- A pod-readiness family message with no samples, used to exhibit the
dispatcher swallowing an AttributeError raised inside the handler body. -/
def podFamilyNoMetrics : MetricFamily := ⟨"kube_pod_status_ready", []⟩

/-- A cpu-capacity family whose only sample has no labels, making
metric.label[0] raise IndexError inside the handler. -/
def cpuFamilyEmptyLabels : MetricFamily :=
  ⟨"kube_node_status_capacity_cpu_cores", [⟨[], ⟨1⟩⟩]⟩

/-- A sample with a nonzero gauge and no condition label. -/
def noCondSample : Metric := ⟨[⟨"foo", "bar"⟩], ⟨1⟩⟩

/-- A cpu-capacity family whose sample's first label is named foo, not node. -/
def cpuMsgFirstLabelFoo : MetricFamily :=
  ⟨"kube_node_status_capacity_cpu_cores", [⟨[⟨"foo", "n1"⟩, ⟨"node", "n2"⟩], ⟨4⟩⟩]⟩

/-- A family name no handler is registered under. -/
def unmatchedMsg : MetricFamily := ⟨"some_other_family", [⟨[⟨"node", "n1"⟩], ⟨1⟩⟩]⟩

/-- The pod-readiness example of the spec: two samples, pod-a and pod-b, both
with condition true asserted. -/
def podExampleMsg : MetricFamily :=
  ⟨"kube_pod_status_ready",
    [⟨[⟨"namespace", "ns1"⟩, ⟨"pod", "pod-a"⟩, ⟨"condition", "true"⟩], ⟨1⟩⟩,
      ⟨[⟨"namespace", "ns1"⟩, ⟨"pod", "pod-b"⟩, ⟨"condition", "true"⟩], ⟨1⟩⟩]⟩

/-!
Claim theorems.
-/

/-- C1 counterexample: the claim says an attribute-lookup error raised inside
a handler body still propagates out of process.  It does not: calling the
pod-readiness handler with the instance keyword bound to None makes the .get
call inside the handler body raise AttributeError, and process — whose except
clause wraps the handler call, not just the getattr lookup — swallows it and
logs the unable-to-handle line instead of propagating. -/
theorem process_swallows_in_handler_attribute_error :
    handlerFor podFamilyNoMetrics.name = some kube_pod_status_ready ∧
    (kube_pod_status_ready podFamilyNoMetrics InstanceArg.pyNone).err
      = some PyExc.attributeError ∧
    process podFamilyNoMetrics InstanceArg.pyNone =
      some ⟨[Emission.logDebug "Unable to handle metric: kube_pod_status_ready"], none⟩ :=
  ⟨rfl, rfl, rfl⟩

/-- C1 (amended): a failure escaping a registered handler propagates out of
process exactly when it is not an AttributeError; an AttributeError raised
inside the handler body is swallowed by the dispatcher's except clause, which
appends the unable-to-handle debug line after the emissions the handler
already made. -/
theorem process_handler_error_propagation
    (msg : MetricFamily) (kw : InstanceArg) (f : MetricFamily → InstanceArg → HResult)
    (hfound : handlerFor msg.name = some f) (e : PyExc)
    (herr : (f msg kw).err = some e) :
    process msg kw =
      some (if e = PyExc.attributeError then
        ⟨(f msg kw).emissions ++ [Emission.logDebug ("Unable to handle metric: " ++ msg.name)],
          none⟩
      else ⟨(f msg kw).emissions, some e⟩) := by
  have ha : attrFor msg.name = AttrResolution.handler f := by
    unfold handlerFor at hfound
    cases h : attrFor msg.name with
    | handler g =>
      rw [h] at hfound
      have hg : g = f := by simpa using hfound
      rw [hg]
    | nonHandlerRaises e2 => rw [h] at hfound; simp at hfound
    | nonHandlerExternal => rw [h] at hfound; simp at hfound
    | missing => rw [h] at hfound; simp at hfound
  simp only [process, ha]
  cases e <;> rw [herr] <;> rfl

/-- C1 witness: the cpu-capacity handler raises IndexError on a sample with no
labels, and process propagates it unchanged. -/
theorem process_handler_error_propagation_witness :
    process cpuFamilyEmptyLabels InstanceArg.absent =
      some (if PyExc.indexError = PyExc.attributeError then
        ⟨(kube_node_status_capacity_cpu_cores cpuFamilyEmptyLabels InstanceArg.absent).emissions ++
            [Emission.logDebug ("Unable to handle metric: " ++ cpuFamilyEmptyLabels.name)], none⟩
      else
        ⟨(kube_node_status_capacity_cpu_cores cpuFamilyEmptyLabels InstanceArg.absent).emissions,
          some PyExc.indexError⟩) :=
  process_handler_error_propagation cpuFamilyEmptyLabels InstanceArg.absent
    kube_node_status_capacity_cpu_cores rfl PyExc.indexError rfl

/-- C2 counterexample: the claim says a sample without a condition label
evaluates to the pair (absent, gauge truthiness).  On a sample with gauge 1
and no condition label the helper returns (None, None): the second component
is absent too, not the truthiness value true. -/
theorem eval_condition_absent_drops_truthiness :
    noCondSample.gauge.value ≠ 0 ∧
    firstCondValue noCondSample = none ∧
    _eval_metric_condition noCondSample = (none, none) ∧
    _eval_metric_condition noCondSample ≠ (none, some true) := by
  refine ⟨by norm_num [noCondSample], rfl, rfl, by simp [noCondSample, _eval_metric_condition, evalCondLoop]⟩

/-- C2 (amended): when the sample's labels contain no label named condition,
the condition-evaluation helper returns (None, None) — both components absent,
the gauge truthiness discarded. -/
theorem eval_condition_no_condition_label (m : Metric)
    (h : firstCondValue m = none) :
    _eval_metric_condition m = (none, none) := by
  rw [eval_cond_spec, h]

/-- C2 witness: concrete sample with one label named foo and gauge 1. -/
theorem eval_condition_no_condition_label_witness :
    firstCondValue noCondSample = none ∧
    _eval_metric_condition noCondSample = (none, none) :=
  ⟨rfl, eval_condition_no_condition_label noCondSample rfl⟩

theorem cpuCapacityLoop_nonempty (ms : List Metric) (h : ∀ m ∈ ms, m.label ≠ []) :
    cpuCapacityLoop ms =
      ⟨ms.map (fun m =>
          Emission.gauge "kubernetes.node.cpu_capacity" m.gauge.value
            ["host:" ++ m.label.headI.value]), none⟩ := by
  induction ms with
  | nil => rfl
  | cons m rest ih =>
    have hm := h m (List.mem_cons_self m rest)
    rcases hl : m.label with _ | ⟨l0, ls⟩
    · exact absurd hl hm
    · have ihr := ih (fun x hx => h x (List.mem_cons_of_mem m hx))
      simp [cpuCapacityLoop, hl, ihr, List.headI]

/-- C3: for the node cpu-capacity family, whenever every sample has at least
one label, the handler emits exactly one gauge per sample named
kubernetes.node.cpu_capacity carrying the sample's gauge value and the single
tag host: followed by the value of the first label of the sample — a
positional rule that ignores the label's name. -/
theorem cpu_capacity_positional_first_label
    (msg : MetricFamily) (kw : InstanceArg)
    (h : ∀ m ∈ msg.metric, m.label ≠ []) :
    kube_node_status_capacity_cpu_cores msg kw =
      ⟨msg.metric.map (fun m =>
          Emission.gauge "kubernetes.node.cpu_capacity" m.gauge.value
            ["host:" ++ m.label.headI.value]), none⟩ :=
  cpuCapacityLoop_nonempty msg.metric h

/-- C3 witness: a sample whose first label is named foo, not node; the tag is
host:n1, the foo label's value. -/
theorem cpu_capacity_positional_first_label_witness :
    (∀ m ∈ cpuMsgFirstLabelFoo.metric, m.label ≠ []) ∧
    kube_node_status_capacity_cpu_cores cpuMsgFirstLabelFoo InstanceArg.absent =
      ⟨[Emission.gauge "kubernetes.node.cpu_capacity" 4 ["host:n1"]], none⟩ :=
  ⟨by decide, cpu_capacity_positional_first_label cpuMsgFirstLabelFoo InstanceArg.absent
    (by decide)⟩

/-- C4: both node condition handlers run without failure, joining per-sample
emission lists; per sample the node-readiness handler emits exactly one
service check — tagged host: plus the node label's value — precisely when the
gauge is truthy and the first condition label's value is in its table (true
maps to OK, false to CRITICAL, unknown to UNKNOWN), and the out-of-disk
handler does the same with the inverted table (true maps to CRITICAL, false to
OK, unknown to UNKNOWN); a sample with no condition label, an unlisted
condition value, or a falsy gauge emits nothing. -/
theorem node_condition_mapping_exact (msg : MetricFamily) (kw : InstanceArg) (m : Metric) :
    kube_node_status_ready msg kw =
      ⟨List.flatten (msg.metric.map nodeReadySampleEmissions), none⟩ ∧
    kube_node_status_out_of_disk msg kw =
      ⟨List.flatten (msg.metric.map outOfDiskSampleEmissions), none⟩ ∧
    nodeReadySampleEmissions m =
      (if gaugeTruthy m then
        emitChecks "kube_node_status_ready" (nodeHostTags m) (readyStatusFor (firstCondValue m))
      else []) ∧
    outOfDiskSampleEmissions m =
      (if gaugeTruthy m then
        emitChecks "kube_node_status_out_of_disk" (nodeHostTags m)
          (outOfDiskStatusFor (firstCondValue m))
      else []) ∧
    nodeHostTags m = ["host:" ++ formatOpt (_extract_label_value "node" m.label)] :=
  ⟨rfl, rfl, nodeReadySample_spec m, outOfDiskSample_spec m, rfl⟩

/-- C5 counterexample: the claim says every family name with no registered
handler makes process return normally without raising.  But getattr also
resolves non-handler attributes: a family literally named process — which has
no registered handler — resolves to the dispatcher itself, whose invocation
recurses without bound until RecursionError, an exception no except
AttributeError clause catches; likewise a family named log calls the logger
object, which is not callable, and TypeError escapes.  Both calls raise out
of process with no debug line and no normal return. -/
theorem process_name_collision_raises :
    handlerFor "process" = none ∧
    process ⟨"process", []⟩ InstanceArg.absent = some ⟨[], some PyExc.recursionError⟩ ∧
    handlerFor "log" = none ∧
    process ⟨"log", []⟩ InstanceArg.absent = some ⟨[], some PyExc.typeError⟩ :=
  ⟨rfl, rfl, rfl, rfl⟩

/-- C5 (amended): for a family whose name is no attribute of the processor
object at all — it matches neither a registered handler nor any non-handler
attribute (process, log, gauge, kube_check, the two helper methods, or an
inherited dunder name) — process raises nothing and emits exactly the debug
line naming the family, for every context: in particular neither a gauge nor
a service check.  Family names colliding with non-handler attributes are
invoked by getattr instead and can raise non-AttributeError exceptions out of
process. -/
theorem process_unmatched_family (msg : MetricFamily) (kw : InstanceArg)
    (h : attrFor msg.name = AttrResolution.missing) :
    process msg kw =
      some ⟨[Emission.logDebug ("Unable to handle metric: " ++ msg.name)], none⟩ := by
  simp [process, h]

/-- C5 witness: a family named some_other_family is no attribute of the
processor; process logs and returns with no gauge or service-check emission. -/
theorem process_unmatched_family_witness :
    attrFor unmatchedMsg.name = AttrResolution.missing ∧
    process unmatchedMsg InstanceArg.absent =
      some ⟨[Emission.logDebug ("Unable to handle metric: " ++ unmatchedMsg.name)], none⟩ :=
  ⟨rfl, process_unmatched_family unmatchedMsg InstanceArg.absent rfl⟩

/-- C6: each of the five named-label node families emits one gauge per sample
whose single tag is host: plus the value of the first label literally named
node — the lookup helper equals the first-match search List.find? — and the
absent case renders as the string None, making the tag host:None. -/
theorem node_named_label_host_tagging (msg : MetricFamily) (kw : InstanceArg)
    (labels : List Label) :
    kube_node_status_capacity_memory_bytes msg kw =
      ⟨msg.metric.map (fun s =>
          Emission.gauge "kubernetes.node.memory_capacity" s.gauge.value
            ["host:" ++ formatOpt (_extract_label_value "node" s.label)]), none⟩ ∧
    kube_node_status_capacity_pods msg kw =
      ⟨msg.metric.map (fun s =>
          Emission.gauge "kubernetes.node.pods_capacity" s.gauge.value
            ["host:" ++ formatOpt (_extract_label_value "node" s.label)]), none⟩ ∧
    kube_node_status_allocateable_cpu_cores msg kw =
      ⟨msg.metric.map (fun s =>
          Emission.gauge "kubernetes.node.cpu_allocatable" s.gauge.value
            ["host:" ++ formatOpt (_extract_label_value "node" s.label)]), none⟩ ∧
    kube_node_status_allocateable_memory_bytes msg kw =
      ⟨msg.metric.map (fun s =>
          Emission.gauge "kubernetes.node.memory_allocatable" s.gauge.value
            ["host:" ++ formatOpt (_extract_label_value "node" s.label)]), none⟩ ∧
    kube_node_status_allocateable_pods msg kw =
      ⟨msg.metric.map (fun s =>
          Emission.gauge "kubernetes.node.pods_allocatable" s.gauge.value
            ["host:" ++ formatOpt (_extract_label_value "node" s.label)]), none⟩ ∧
    _extract_label_value "node" labels =
      (labels.find? (fun l => l.name == "node")).map Label.value ∧
    formatOpt none = "None" ∧
    "host:" ++ formatOpt (Option.none : Option String) = "host:None" :=
  ⟨rfl, rfl, rfl, rfl, rfl, extract_label_value_eq_find "node" labels, rfl, rfl⟩

/-- C7: each deployment family handler emits exactly one gauge per sample,
carrying the sample's gauge value and one tag per label rendered name:value in
the input label order, so the tag list's length equals the label count. -/
theorem deployment_tags_preserve_labels (msg : MetricFamily) (kw : InstanceArg) (m : Metric) :
    kube_deployment_status_replicas_available msg kw =
      ⟨msg.metric.map (fun s =>
          Emission.gauge "kubernetes.deployment.replicas_available" s.gauge.value
            (s.label.map (fun l => l.name ++ ":" ++ l.value))), none⟩ ∧
    kube_deployment_status_replicas_unavailable msg kw =
      ⟨msg.metric.map (fun s =>
          Emission.gauge "kubernetes.deployment.replicas_unavailable" s.gauge.value
            (s.label.map (fun l => l.name ++ ":" ++ l.value))), none⟩ ∧
    kube_deployment_status_replicas_updated msg kw =
      ⟨msg.metric.map (fun s =>
          Emission.gauge "kubernetes.deployment.replicas_updated" s.gauge.value
            (s.label.map (fun l => l.name ++ ":" ++ l.value))), none⟩ ∧
    kube_deployment_spec_replicas msg kw =
      ⟨msg.metric.map (fun s =>
          Emission.gauge "kubernetes.deployment.replicas_desired" s.gauge.value
            (s.label.map (fun l => l.name ++ ":" ++ l.value))), none⟩ ∧
    (kube_deployment_status_replicas_available msg kw).emissions.length =
      msg.metric.length ∧
    (deploymentTags m).length = m.label.length :=
  ⟨rfl, rfl, rfl, rfl,
    by simp [kube_deployment_status_replicas_available],
    by simp [deploymentTags]⟩

/-- C8: with a configured allow-list, the pod-readiness handler runs without
failure, joining per-sample emissions; a sample produces a service check —
with tags namespace: and pod: — exactly when its pod label's value is in the
allow-list, its gauge is truthy and its condition value is in the readiness
table; on the spec's example message (allow-list pod-a, samples pod-a and
pod-b both asserting condition true) process emits exactly one OK service
check, for pod-a, tagged namespace:ns1 and pod:pod-a. -/
theorem pod_allowlist_filtering (msg : MetricFamily) (pods : List String) (m : Metric) :
    kube_pod_status_ready msg (InstanceArg.dict (some pods)) =
      ⟨List.flatten (msg.metric.map (podReadySampleEmissions pods)), none⟩ ∧
    podReadySampleEmissions pods m =
      (if optMem (_extract_label_value "pod" m.label) pods then
        (if gaugeTruthy m then
          emitChecks "kube_pod_status_ready" (podTags m) (readyStatusFor (firstCondValue m))
        else [])
      else []) ∧
    process podExampleMsg (InstanceArg.dict (some ["pod-a"])) =
      some ⟨[Emission.serviceCheck "kube_pod_status_ready" SCStatus.OK
          ["namespace:ns1", "pod:pod-a"]], none⟩ :=
  ⟨rfl, podReadySample_spec pods m, by decide⟩

/-- C9: when no pod allow-list is configured — the instance keyword absent, or
present as a mapping without status_ready_for_pods — the pod-readiness handler
emits only its debug line and returns before examining any sample, whatever
the message contains. -/
theorem pod_ready_requires_allowlist (msg : MetricFamily) :
    kube_pod_status_ready msg InstanceArg.absent =
      ⟨[Emission.logDebug
          "no pods configured, kube_pod_status_ready has nothing to do, returning..."],
        none⟩ ∧
    kube_pod_status_ready msg (InstanceArg.dict none) =
      ⟨[Emission.logDebug
          "no pods configured, kube_pod_status_ready has nothing to do, returning..."],
        none⟩ :=
  ⟨rfl, rfl⟩

/-- C10: the mixed branch shape of the pod-readiness loop body — an
unconditional if for the asserted-false case followed by elif for unknown,
after a separate if for asserted-true — produces, for every sample, exactly
the emissions of the symmetric elif chain used by the node-readiness handler,
and never more than one service check per sample. -/
theorem pod_branch_shape_equivalence (pods : List String) (m : Metric) :
    podReadySampleEmissions pods m = podReadySampleElifChain pods m ∧
    (podReadySampleEmissions pods m).length ≤ 1 := by
  constructor
  · rw [podReadySample_spec, podReadySampleElifChain_spec]
  · rw [podReadySample_spec]
    by_cases hp : optMem (_extract_label_value "pod" m.label) pods = true
    · simp only [hp, if_true]
      cases ht : gaugeTruthy m
      · simp
      · simp only [if_true]
        cases readyStatusFor (firstCondValue m) <;> simp [emitChecks]
    · simp [hp]
